import Mathlib

/-!
# Koladata data-slice core: shallow embedding and verification

The repository is a Python front-end over a native data-slice evaluation
engine; the engine itself is not part of the visible sources, only its
exhaustive operator test suites and function aliases are.  Following the
design spec, the definitions below model the engine components that the
test suites exercise: jagged shapes, schema-tagged data slices, the
`agg_min` aggregation with its `ndim` handling, primitive-schema dispatch,
`is_primitive`, `select_keys`, `list_size`, `no_db`/`with_db`, the
allocation subsystem, and the `from_py(dict_as_obj=True)` conversion
pathway.  Every definition marked `Modelled from the spec:` renders engine
behaviour that is described in the spec and pinned down by the test files
under `src/py/koladata`.
-/

namespace Koladata

/-- Modelled from the spec: a jagged shape is an ordered sequence of
per-level size arrays; level `d+1` has one size per element implied by
level `d`; rank is the number of levels; a rank-0 shape denotes a single
scalar. -/
structure JaggedShape where
  levels : List (List Nat)
deriving Repr, DecidableEq

/-- Rank of a jagged shape: the number of levels. -/
def JaggedShape.rank (s : JaggedShape) : Nat := s.levels.length

/-- Number of leaf elements described by a jagged shape: the sum of the
last level's sizes, or 1 for the rank-0 (scalar) shape. -/
def JaggedShape.itemCount (s : JaggedShape) : Nat :=
  match s.levels.getLast? with
  | none => 1
  | some l => l.sum

/-- Checks the per-level consistency of a size-array chain: the first
level describes `n` parents, the next level has one size entry per child,
and so on. -/
def levelsOk : Nat → List (List Nat) → Bool
  | _, [] => true
  | n, l :: rest => (l.length == n) && levelsOk l.sum rest

/-- Modelled from the spec: a shape is well formed when every level's size
array has exactly one entry per element of the previous level (with a
single implicit root above level 0). -/
def JaggedShape.isValid (s : JaggedShape) : Bool := levelsOk 1 s.levels

/-- Modelled from the spec: a numeric data slice for the aggregation
claims — a jagged shape together with a flat array of possibly-absent
values; absent is a distinct sentinel (`none`), not a value. -/
structure DataSlice where
  shape : JaggedShape
  items : List (Option Int)
deriving Repr, DecidableEq

/-- Rank of a slice. -/
def DataSlice.rank (x : DataSlice) : Nat := x.shape.rank

/-- A valid slice has a well-formed shape and exactly one flat item per
leaf element of the shape. -/
def DataSlice.isValid (x : DataSlice) : Bool :=
  x.shape.isValid && (x.items.length == x.shape.itemCount)

/-- Splits a flat item array into consecutive groups of the given sizes
(the groups induced by the last shape level). -/
def splitBySizes : List Nat → List (Option Int) → List (List (Option Int))
  | [], _ => []
  | n :: rest, xs => xs.take n :: splitBySizes rest (xs.drop n)

/-- Minimum of a list of integers, `none` for the empty list. -/
def listMin : List Int → Option Int
  | [] => none
  | h :: t => some (t.foldl min h)

/-- Modelled from the spec: reduction of one group under `agg_min` —
absent elements are excluded, a group that is all-absent reduces to
absent. -/
def minPresent (g : List (Option Int)) : Option Int :=
  listMin (g.filterMap id)

/-- The size array of the last shape level (the grouping for a
one-dimension aggregation). -/
def DataSlice.lastSizes (x : DataSlice) : List Nat :=
  (x.shape.levels.getLast?).getD []

/-- Modelled from the spec: one aggregation step of `agg_min` — the last
shape level is collapsed, and each of its groups reduces to the minimum
of its present values (absent when the group is all-absent). -/
def aggMinOnce (x : DataSlice) : DataSlice :=
  ⟨⟨x.shape.levels.dropLast⟩, (splitBySizes x.lastSizes x.items).map minPresent⟩

/-- Iterated one-dimension aggregation: collapses `n` trailing levels. -/
def aggMinN : Nat → DataSlice → DataSlice
  | 0, x => x
  | n + 1, x => aggMinN n (aggMinOnce x)

/-- Modelled from the spec: `agg_min(x, ndim)`.  A rank-0 argument always
fails with "expected rank(x) > 0"; an `ndim` outside `[0, rank]` fails
with a bounds error naming the valid range; `ndim = 0` is the identity;
otherwise the trailing `ndim` levels collapse into the reduction.  An
unspecified `ndim` (`none`) means "reduce exactly one trailing
dimension". -/
def agg_min (x : DataSlice) (ndim : Option Int) : Except String DataSlice :=
  if x.rank = 0 then .error "expected rank(x) > 0"
  else
    let n := ndim.getD 1
    if n < 0 ∨ (x.rank : Int) < n then .error "expected 0 <= ndim <= rank"
    else .ok (aggMinN n.toNat x)

/-- `listMin` agrees with the library minimum. -/
theorem listMin_eq_min? (l : List Int) : listMin l = l.min? := by
  cases l <;> rfl

/-- `listMin` returns `some m` exactly when `m` is a member and a lower
bound of the list. -/
theorem listMin_spec (l : List Int) (m : Int) :
    listMin l = some m ↔ m ∈ l ∧ ∀ b ∈ l, m ≤ b := by
  rw [listMin_eq_min?]
  have inst : Std.Antisymm (fun (x1 x2 : Int) => x1 ≤ x2) :=
    ⟨by intro a b h h2; exact le_antisymm h h2⟩
  exact List.min?_eq_some_iff (fun a => le_refl a) (fun a b => min_choice a b)
    (fun a b c => le_min_iff)

/-- `listMin` is `none` exactly on the empty list. -/
theorem listMin_eq_none (l : List Int) : listMin l = none ↔ l = [] := by
  rw [listMin_eq_min?]; exact List.min?_eq_none_iff

/-- A group reduces to absent exactly when all its elements are absent. -/
theorem minPresent_eq_none (g : List (Option Int)) :
    minPresent g = none ↔ ∀ v ∈ g, v = none := by
  rw [minPresent, listMin_eq_none, List.filterMap_eq_nil_iff]
  simp [id]

/-- A group with a present value reduces to the least present value. -/
theorem minPresent_eq_some (g : List (Option Int)) (m : Int)
    (h : minPresent g = some m) :
    some m ∈ g ∧ ∀ v ∈ g, ∀ w : Int, v = some w → m ≤ w := by
  rw [minPresent, listMin_spec] at h
  obtain ⟨hm, hb⟩ := h
  rw [List.mem_filterMap] at hm
  refine ⟨by simpa [id] using hm, ?_⟩
  intro v hv w hw
  subst hw
  exact hb w (by rw [List.mem_filterMap]; exact ⟨some w, hv, rfl⟩)

/-- C1: For `agg_min` over any slice of rank at least 1, absent elements
are excluded from the reduction: the default (`ndim` unspecified)
aggregation reduces each last-level group with `minPresent`; a group
reduces to absent exactly when all its elements are absent, and a group
with a present value reduces to the minimum of its present values (no
error is raised).  In particular `agg_min([1, None, 3]) = 1`,
`agg_min([None, None]) = None`, and
`agg_min([[1,None,None],[3,4],[None,None]], ndim=1) = [1, 3, None]`. -/
theorem agg_min_excludes_absent (x : DataSlice) (hv : x.isValid = true)
    (hr : 1 ≤ x.rank) :
    agg_min x none =
      .ok ⟨⟨x.shape.levels.dropLast⟩,
           (splitBySizes x.lastSizes x.items).map minPresent⟩
    ∧ (∀ g : List (Option Int), (minPresent g = none ↔ ∀ v ∈ g, v = none))
    ∧ (∀ g : List (Option Int), ∀ m : Int, minPresent g = some m →
        some m ∈ g ∧ ∀ v ∈ g, ∀ w : Int, v = some w → m ≤ w)
    ∧ agg_min ⟨⟨[[3]]⟩, [some 1, none, some 3]⟩ none = .ok ⟨⟨[]⟩, [some 1]⟩
    ∧ agg_min ⟨⟨[[2]]⟩, [none, none]⟩ none = .ok ⟨⟨[]⟩, [none]⟩
    ∧ agg_min ⟨⟨[[3], [3, 2, 2]]⟩,
        [some 1, none, none, some 3, some 4, none, none]⟩ (some 1) =
      .ok ⟨⟨[[3]]⟩, [some 1, some 3, none]⟩ := by
  have hr0 : ¬(x.rank = 0) := by omega
  have hcond : ¬((1 : Int) < 0 ∨ (x.rank : Int) < 1) := by
    push_neg
    exact ⟨by norm_num, by exact_mod_cast hr⟩
  refine ⟨?_, minPresent_eq_none, minPresent_eq_some, rfl, rfl, rfl⟩
  rw [agg_min, if_neg hr0]
  simp only [Option.getD, if_neg hcond]
  rfl

/-- Witness for C1 at the concrete slice `[1, None, 3]`. -/
theorem agg_min_excludes_absent_witness :
    agg_min ⟨⟨[[3]]⟩, [some 1, none, some 3]⟩ none = .ok ⟨⟨[]⟩, [some 1]⟩ :=
  (agg_min_excludes_absent ⟨⟨[[3]]⟩, [some 1, none, some 3]⟩ (by decide)
    (by decide)).2.2.2.1

/-- C2: `agg_min(x, ndim=0)` is the identity on every slice of rank at
least 1; an `ndim` that is negative or exceeds the rank fails with the
bounds error "expected 0 <= ndim <= rank"; and a rank-0 (DataItem)
argument always fails with "expected rank(x) > 0" (this rank check comes
first, so the identity and bounds statements apply to rank >= 1). -/
theorem agg_min_ndim_bounds (x : DataSlice) (hv : x.isValid = true) :
    (1 ≤ x.rank → agg_min x (some 0) = .ok x)
    ∧ (∀ n : Int, 1 ≤ x.rank → (n < 0 ∨ (x.rank : Int) < n) →
        agg_min x (some n) = .error "expected 0 <= ndim <= rank")
    ∧ (x.rank = 0 → ∀ ndim : Option Int,
        agg_min x ndim = .error "expected rank(x) > 0") := by
  refine ⟨?_, ?_, ?_⟩
  · intro hr
    have hr0 : ¬(x.rank = 0) := by omega
    have hcond : ¬((0 : Int) < 0 ∨ (x.rank : Int) < 0) := by
      push_neg
      exact ⟨by norm_num, by positivity⟩
    rw [agg_min, if_neg hr0]
    simp only [Option.getD, if_neg hcond]
    rfl
  · intro n hr hn
    have hr0 : ¬(x.rank = 0) := by omega
    rw [agg_min, if_neg hr0]
    simp only [Option.getD, if_pos hn]
  · intro hr ndim
    rw [agg_min, if_pos hr]

/-- Witness for C2 at the concrete slices `[1, 2, 3]` and the DataItem
`1`. -/
theorem agg_min_ndim_bounds_witness :
    agg_min ⟨⟨[[3]]⟩, [some 1, some 2, some 3]⟩ (some 0) =
      .ok ⟨⟨[[3]]⟩, [some 1, some 2, some 3]⟩
    ∧ agg_min ⟨⟨[[3]]⟩, [some 1, some 2, some 3]⟩ (some (-1)) =
      .error "expected 0 <= ndim <= rank"
    ∧ agg_min ⟨⟨[[3]]⟩, [some 1, some 2, some 3]⟩ (some 2) =
      .error "expected 0 <= ndim <= rank"
    ∧ agg_min ⟨⟨[]⟩, [some 1]⟩ none = .error "expected rank(x) > 0" :=
  ⟨(agg_min_ndim_bounds ⟨⟨[[3]]⟩, [some 1, some 2, some 3]⟩ (by decide)).1
      (by decide),
   (agg_min_ndim_bounds ⟨⟨[[3]]⟩, [some 1, some 2, some 3]⟩ (by decide)).2.1
      (-1) (by decide) (by decide),
   (agg_min_ndim_bounds ⟨⟨[[3]]⟩, [some 1, some 2, some 3]⟩ (by decide)).2.1
      2 (by decide) (by decide),
   (agg_min_ndim_bounds ⟨⟨[]⟩, [some 1]⟩ (by decide)).2.2 (by decide) none⟩

/-- Modelled from the spec: the fixed set of primitive type kinds
(numeric integer widths, floating widths, text, bytes, boolean, mask). -/
inductive PrimKind where
  | int32
  | int64
  | float32
  | float64
  | text
  | bytes
  | boolean
  | mask
deriving Repr, DecidableEq

/-- Whether a primitive kind is numeric. -/
def PrimKind.isNumeric : PrimKind → Bool
  | .int32 | .int64 | .float32 | .float64 => true
  | _ => false

/-- A primitive value: kind plus payload data.  Floating values are
modelled opaquely by their bit patterns, byte strings as byte lists. -/
inductive PrimVal where
  | int32 (v : Int)
  | int64 (v : Int)
  | float32 (bits : Nat)
  | float64 (bits : Nat)
  | text (s : String)
  | bytes (b : List Nat)
  | boolean (b : Bool)
  | mask
deriving Repr, DecidableEq

/-- The runtime kind of a primitive value. -/
def PrimVal.kind : PrimVal → PrimKind
  | .int32 _ => .int32
  | .int64 _ => .int64
  | .float32 _ => .float32
  | .float64 _ => .float64
  | .text _ => .text
  | .bytes _ => .bytes
  | .boolean _ => .boolean
  | .mask => .mask

/-- Modelled from the spec: a schema describes the type of slice
elements — primitive, OBJECT (per-element runtime schema), ANY
(type-erased), ITEMID, schema-of-schema, or an entity/list/dict schema
addressed by an identifier. -/
inductive Schema where
  | prim (k : PrimKind)
  | object
  | any
  | itemid
  | schemaS
  | entity (id : Nat)
  | listS (id : Nat)
  | dictS (id : Nat)
deriving Repr, DecidableEq

/-- A flat slice element: a primitive value, an opaque reference to
structured content (entity/object/list/dict), or a schema value. -/
inductive Payload where
  | prim (v : PrimVal)
  | ref (id : Nat)
  | schemaVal (s : Schema)
deriving Repr, DecidableEq

/-- Whether a payload is a primitive value. -/
def Payload.isPrimitive : Payload → Bool
  | .prim _ => true
  | _ => false

/-- The runtime primitive kind of a payload, when it has one. -/
def payloadPrimKind : Payload → Option PrimKind
  | .prim v => some v.kind
  | _ => none

/-- A schema-tagged slice: the slice-level schema together with the flat
array of possibly-absent elements (shape plays no role in per-element
schema dispatch). -/
structure SchemaSlice where
  schema : Schema
  items : List (Option Payload)
deriving Repr, DecidableEq

/-- The present (non-absent) elements of a slice. -/
def presentPayloads (x : SchemaSlice) : List Payload :=
  x.items.filterMap id

/-- Whether a list of runtime kinds is uniform (all equal to the
first). -/
def uniformKind : List PrimKind → Bool
  | [] => true
  | k :: rest => rest.all (fun k2 => k2 == k)

/-- Modelled from the spec: the schema-dispatch gate for operators that
require a primitive schema (numeric aggregation, arithmetic).  As pinned
down by `math_agg_min_test.py`: a slice with an entity schema is rejected
with "DataSlice with Entity schema is not supported"; an OBJECT/ANY slice
whose present elements include a non-primitive payload is rejected with
"DataSlice has no primitive schema"; an OBJECT/ANY slice whose present
elements are primitives of heterogeneous kinds is rejected with
"DataSlice with mixed types is not supported"; a uniform primitive
payload passes. -/
def aggPrimitiveCheck (x : SchemaSlice) : Except String Unit :=
  match x.schema with
  | .prim _ => .ok ()
  | .entity _ => .error "DataSlice with Entity schema is not supported"
  | .object | .any =>
      let ps := presentPayloads x
      if ps.all Payload.isPrimitive then
        if uniformKind (ps.filterMap payloadPrimKind) then .ok ()
        else .error "DataSlice with mixed types is not supported"
      else .error "DataSlice has no primitive schema"
  | _ => .error "DataSlice has no primitive schema"

/-- Modelled from the spec: `is_primitive` returns present (true) exactly
when every present element of the slice is a primitive value (a fully
absent slice is vacuously primitive). -/
def is_primitive (x : SchemaSlice) : Bool :=
  x.items.all (fun o =>
    match o with
    | none => true
    | some p => p.isPrimitive)

/-- Membership in the present payloads is membership as a present item. -/
theorem mem_presentPayloads (x : SchemaSlice) (p : Payload) :
    p ∈ presentPayloads x ↔ some p ∈ x.items := by
  rw [presentPayloads, List.mem_filterMap]
  simp [id]

/-- C3 counterexample: a slice whose schema is an entity schema is
rejected by the numeric-aggregation dispatch with "DataSlice with Entity
schema is not supported" (as `math_agg_min_test.py` requires), not with
"DataSlice has no primitive schema" as the claim states. -/
theorem aggmin_entity_error_counterexample :
    aggPrimitiveCheck ⟨Schema.entity 0, [some (Payload.ref 0)]⟩ =
      .error "DataSlice with Entity schema is not supported"
    ∧ aggPrimitiveCheck ⟨Schema.entity 0, [some (Payload.ref 0)]⟩ ≠
      .error "DataSlice has no primitive schema" := by
  refine ⟨rfl, fun h => ?_⟩
  have h2 : "DataSlice with Entity schema is not supported" =
      "DataSlice has no primitive schema" := by injection h
  exact absurd h2 (by decide)

/-- C3 (amended): numeric aggregation rejects non-primitive inputs at
dispatch — a slice with an entity schema fails with "DataSlice with
Entity schema is not supported"; an OBJECT/ANY slice with a present
non-primitive element fails with "DataSlice has no primitive schema";
and an OBJECT/ANY slice whose present elements are primitives of
heterogeneous kinds fails with "DataSlice with mixed types is not
supported". -/
theorem aggmin_schema_dispatch (x : SchemaSlice) :
    (∀ id : Nat, x.schema = Schema.entity id →
      aggPrimitiveCheck x =
        .error "DataSlice with Entity schema is not supported")
    ∧ ((x.schema = Schema.object ∨ x.schema = Schema.any) →
        (∃ p ∈ presentPayloads x, p.isPrimitive = false) →
        aggPrimitiveCheck x = .error "DataSlice has no primitive schema")
    ∧ ((x.schema = Schema.object ∨ x.schema = Schema.any) →
        (∀ p ∈ presentPayloads x, p.isPrimitive = true) →
        uniformKind ((presentPayloads x).filterMap payloadPrimKind) = false →
        aggPrimitiveCheck x =
          .error "DataSlice with mixed types is not supported") := by
  obtain ⟨sch, items⟩ := x
  refine ⟨?_, ?_, ?_⟩
  · intro id h
    subst h
    rfl
  · intro hsch hex
    have hall : (presentPayloads ⟨sch, items⟩).all Payload.isPrimitive = false := by
      rw [List.all_eq_false]
      obtain ⟨p, hp, hfalse⟩ := hex
      exact ⟨p, hp, by simp [hfalse]⟩
    rcases hsch with h | h <;> subst h <;>
      simp [aggPrimitiveCheck, hall]
  · intro hsch hall hmix
    have hall2 : (presentPayloads ⟨sch, items⟩).all Payload.isPrimitive = true := by
      rw [List.all_eq_true]
      intro p hp
      simp [hall p hp]
    rcases hsch with h | h <;> subst h <;>
      simp [aggPrimitiveCheck, hall2, hmix]

/-- Witness for C3's amended theorem at the concrete inputs of
`math_agg_min_test.py`: an entity slice, an OBJECT slice holding an
object reference, and the OBJECT slice `[1, 2.0]` of mixed primitive
kinds. -/
theorem aggmin_schema_dispatch_witness :
    aggPrimitiveCheck ⟨Schema.entity 0, [some (Payload.ref 0)]⟩ =
      .error "DataSlice with Entity schema is not supported"
    ∧ aggPrimitiveCheck ⟨Schema.object, [some (Payload.ref 7)]⟩ =
      .error "DataSlice has no primitive schema"
    ∧ aggPrimitiveCheck ⟨Schema.object,
        [some (Payload.prim (PrimVal.int32 1)),
         some (Payload.prim (PrimVal.float32 0))]⟩ =
      .error "DataSlice with mixed types is not supported" :=
  ⟨(aggmin_schema_dispatch ⟨Schema.entity 0, [some (Payload.ref 0)]⟩).1 0 rfl,
   (aggmin_schema_dispatch ⟨Schema.object, [some (Payload.ref 7)]⟩).2.1
     (Or.inl rfl) ⟨Payload.ref 7, by decide, rfl⟩,
   (aggmin_schema_dispatch ⟨Schema.object,
       [some (Payload.prim (PrimVal.int32 1)),
        some (Payload.prim (PrimVal.float32 0))]⟩).2.2
     (Or.inl rfl) (by decide) rfl⟩

/-- C10: `is_primitive` returns present (true) exactly when every present
element is a primitive value — so it is true for slices mixing different
primitive types and for the fully-missing input, and false for list
items, dict items, object items, and schema constants such as TEXT. -/
theorem is_primitive_cases (x : SchemaSlice) :
    (is_primitive x = true ↔ ∀ p ∈ presentPayloads x, p.isPrimitive = true)
    ∧ is_primitive ⟨Schema.object,
        [some (Payload.prim (PrimVal.text "hello")),
         some (Payload.prim (PrimVal.int32 1)),
         some (Payload.prim (PrimVal.text "world"))]⟩ = true
    ∧ is_primitive ⟨Schema.object, [none]⟩ = true
    ∧ is_primitive ⟨Schema.listS 0, [some (Payload.ref 5)]⟩ = false
    ∧ is_primitive ⟨Schema.dictS 0, [some (Payload.ref 6)]⟩ = false
    ∧ is_primitive ⟨Schema.object, [some (Payload.ref 7)]⟩ = false
    ∧ is_primitive ⟨Schema.schemaS,
        [some (Payload.schemaVal (Schema.prim PrimKind.text))]⟩ = false := by
  refine ⟨?_, rfl, rfl, rfl, rfl, rfl, rfl⟩
  rw [is_primitive, List.all_eq_true]
  constructor
  · intro h p hp
    have := h (some p) ((mem_presentPayloads x p).mp hp)
    simpa using this
  · intro h o ho
    match o with
    | none => rfl
    | some p =>
        have := h p ((mem_presentPayloads x p).mpr ho)
        simpa using this

/-- Modelled from the spec: an allocated identifier is a function of the
allocation epoch (the evaluation-cache scope), the memoization key (the
argument expression, here the shape argument), and the element index —
evaluation is a function of (arguments, allocation-epoch), and "clear
caches" starts a new epoch. -/
structure AllocId where
  epoch : Nat
  key : List (List Nat)
  index : Nat
deriving Repr, DecidableEq

/-- An ITEMID-schema slice of allocated identifiers. -/
structure ItemIdSlice where
  schema : Schema
  shape : JaggedShape
  ids : List AllocId
deriving Repr, DecidableEq

/-- Modelled from the spec: `new_listid_shaped_as(shape)` produces one
fresh identifier per element of the given shape with schema ITEMID,
memoized against its exact argument expression within one evaluation
cache scope (epoch); identifiers from different epochs never collide. -/
def new_listid_shaped_as (epoch : Nat) (shape : JaggedShape) : ItemIdSlice :=
  ⟨Schema.itemid, shape,
   (List.range shape.itemCount).map (fun i => ⟨epoch, shape.levels, i⟩)⟩

/-- C4: two evaluations of `new_listid_shaped_as` with structurally equal
shape arguments in the same evaluation epoch return identical
ITEMID-schema identifier slices, and after a cache clear (a new epoch) a
further evaluation returns identifiers elementwise unequal to the earlier
ones (and an unequal slice whenever the shape is non-empty). -/
theorem new_listid_shaped_as_epochs (e e2 : Nat) (s t : JaggedShape)
    (hst : s = t) (hee : e ≠ e2) :
    new_listid_shaped_as e s = new_listid_shaped_as e t
    ∧ (new_listid_shaped_as e s).schema = Schema.itemid
    ∧ (∀ a ∈ (new_listid_shaped_as e s).ids,
        ∀ b ∈ (new_listid_shaped_as e2 t).ids, a ≠ b)
    ∧ (0 < s.itemCount →
        new_listid_shaped_as e s ≠ new_listid_shaped_as e2 t) := by
  subst hst
  have hdisj : ∀ a ∈ (new_listid_shaped_as e s).ids,
      ∀ b ∈ (new_listid_shaped_as e2 s).ids, a ≠ b := by
    intro a ha b hb heq
    simp only [new_listid_shaped_as, List.mem_map, List.mem_range] at ha hb
    obtain ⟨i, hi, rfl⟩ := ha
    obtain ⟨j, hj, rfl⟩ := hb
    injection heq with h1 h2 h3
    exact hee h1
  refine ⟨rfl, rfl, hdisj, ?_⟩
  intro hc heq
  have hne : (new_listid_shaped_as e s).ids ≠ [] := by
    simp only [new_listid_shaped_as, ne_eq, List.map_eq_nil_iff,
      List.range_eq_nil]
    omega
  obtain ⟨a, ha⟩ := List.exists_mem_of_ne_nil _ hne
  have ha2 : a ∈ (new_listid_shaped_as e2 s).ids := by
    rw [← heq]
    exact ha
  exact hdisj a ha a ha2 rfl

/-- Witness for C4 at the shape of `ds([1, 1])` with epochs 0 and 1. -/
theorem new_listid_shaped_as_epochs_witness :
    new_listid_shaped_as 0 ⟨[[2]]⟩ = new_listid_shaped_as 0 ⟨[[2]]⟩
    ∧ new_listid_shaped_as 0 ⟨[[2]]⟩ ≠ new_listid_shaped_as 1 ⟨[[2]]⟩ :=
  ⟨(new_listid_shaped_as_epochs 0 1 ⟨[[2]]⟩ ⟨[[2]]⟩ rfl (by decide)).1,
   (new_listid_shaped_as_epochs 0 1 ⟨[[2]]⟩ ⟨[[2]]⟩ rfl (by decide)).2.2.2
     (by decide)⟩

/-- Modelled from the spec: a slice of dict-valued elements — per element
an ordered association of keys to values (keys in insertion order). -/
structure DictSlice where
  dicts : List (List (Int × Int))
deriving Repr, DecidableEq

/-- Modelled from the spec: `get_keys` returns, per dict element, its
keys in their stored order (one level deeper than the dict slice). -/
def get_keys (d : DictSlice) : List (List Int) :=
  d.dicts.map (fun kvs => kvs.map Prod.fst)

/-- Modelled from the spec: `select_keys(D, F)` for a mask `F` of the
dict slice's own shape (one level shallower than the key lists) returns,
per dict element, the ordered subsequence of its keys kept where the
mask entry (broadcast over that dict's keys) is present; mismatched
shapes fail. -/
def select_keys (d : DictSlice) (mask : List Bool) :
    Except String (List (List Int)) :=
  if d.dicts.length = mask.length then
    .ok (((get_keys d).zip mask).map (fun km => km.1.filter (fun _ => km.2)))
  else .error "shape mismatch"

/-- Filtering by a constant presence bit keeps all or nothing. -/
theorem filter_const {α : Type} (b : Bool) (l : List α) :
    l.filter (fun _ => b) = if b then l else [] := by
  cases b <;> simp

/-- C5: for a dict slice `D` and a mask `F` of the compatible shape one
level shallower than `D`'s key lists, `select_keys(D, F)` returns, per
dict element, the subsequence of `get_keys(D)` whose corresponding mask
entry is present (all keys when present, none when absent), preserving
the original key order; in particular dicts `[{1:1},{2:2},{3:3}]` with
mask `[present, None, None]` yield keys `[[1],[],[]]`. -/
theorem select_keys_spec (d : DictSlice) (mask : List Bool)
    (h : d.dicts.length = mask.length) :
    select_keys d mask =
      .ok (((get_keys d).zip mask).map (fun km => if km.2 then km.1 else []))
    ∧ (∀ km ∈ (get_keys d).zip mask,
        (km.1.filter (fun _ => km.2)).Sublist km.1)
    ∧ select_keys ⟨[[(1, 1)], [(2, 2)], [(3, 3)]]⟩ [true, false, false] =
      .ok [[1], [], []] := by
  refine ⟨?_, fun km _ => List.filter_sublist km.1, rfl⟩
  rw [select_keys, if_pos h]
  congr 1
  exact List.map_congr_left (fun km _ => filter_const km.2 km.1)

/-- Witness for C5 at the dicts `[{1:1},{2:2},{3:3}]` with mask
`[present, None, None]`. -/
theorem select_keys_spec_witness :
    select_keys ⟨[[(1, 1)], [(2, 2)], [(3, 3)]]⟩ [true, false, false] =
      .ok [[1], [], []] :=
  (select_keys_spec ⟨[[(1, 1)], [(2, 2)], [(3, 3)]]⟩ [true, false, false]
    (by decide)).2.2

/-- Modelled from the spec: the list-container portion of a DataBag — an
associative store from container id to the ordered item list; a
container with no stored row is absent-initialized. -/
structure ListBag where
  store : List (Nat × List Int)
deriving Repr, DecidableEq

/-- The stored contents of a list container; an absent-initialized
container has empty contents. -/
def listContents (b : ListBag) (id : Nat) : List Int :=
  ((b.store.find? (fun e => e.1 == id)).map Prod.snd).getD []

/-- Modelled from the spec: `list_size` returns, per element, the present
element count of that list container — the size of an absent-initialized
container is defined as 0, not absent. -/
def list_size (b : ListBag) (ids : List Nat) : List (Option Int) :=
  ids.map (fun id => some ((listContents b id).length : Int))

/-- C8: for every slice of list containers created empty
(absent-initialized: no stored contents row), `list_size` returns present
0 for each element, not absent; in general it returns each list's element
count — an empty list has size 0, a shape-`[3]` slice of empty lists has
sizes `[0, 0, 0]`, and populated lists `[[1,2,3],[4],[5,6]]` have sizes
`[3, 1, 2]`. -/
theorem list_size_spec (b : ListBag) (ids : List Nat)
    (h : ∀ id ∈ ids, b.store.find? (fun e => e.1 == id) = none) :
    list_size b ids = ids.map (fun _ => some 0)
    ∧ (∀ (b2 : ListBag) (ids2 : List Nat),
        list_size b2 ids2 =
          ids2.map (fun id => some ((listContents b2 id).length : Int)))
    ∧ list_size ⟨[]⟩ [0] = [some 0]
    ∧ list_size ⟨[]⟩ [0, 1, 2] = [some 0, some 0, some 0]
    ∧ list_size ⟨[(0, [1, 2, 3]), (1, [4]), (2, [5, 6])]⟩ [0, 1, 2] =
      [some 3, some 1, some 2] := by
  refine ⟨?_, fun b2 ids2 => rfl, rfl, rfl, rfl⟩
  rw [list_size]
  refine List.map_congr_left (fun id hid => ?_)
  rw [listContents, h id hid]
  rfl

/-- Witness for C8 at a shape-`[3]` slice of absent-initialized list
containers in an empty bag. -/
theorem list_size_spec_witness :
    list_size ⟨[]⟩ [0, 1, 2] = [0, 1, 2].map (fun _ => some 0) :=
  (list_size_spec ⟨[]⟩ [0, 1, 2] (by decide)).1

/-- The full slice value model: (shape, schema, content, optional bag);
the bag is attached by reference. -/
structure FullSlice where
  shape : JaggedShape
  schema : Schema
  items : List (Option Payload)
  db : Option Nat
deriving Repr, DecidableEq

/-- Modelled from the spec: `with_db` rebinds the attached bag, a pure
metadata change with no copy of content. -/
def with_db (x : FullSlice) (b : Option Nat) : FullSlice := { x with db := b }

/-- Modelled from the spec: `no_db` detaches the bag. -/
def no_db (x : FullSlice) : FullSlice := with_db x none

/-- C9: for every slice (with or without an attached bag), `no_db(x)`
equals `x.with_db(None)`; detaching or rebinding the bag leaves the
shape, the schema, and the elementwise content (including absent-ness)
unchanged — the content is the identical value, not a copy. -/
theorem no_db_is_with_db_none (x : FullSlice) :
    no_db x = with_db x none
    ∧ (no_db x).shape = x.shape
    ∧ (no_db x).schema = x.schema
    ∧ (no_db x).items = x.items
    ∧ (no_db x).db = none
    ∧ (∀ b : Option Nat, (with_db x b).shape = x.shape
        ∧ (with_db x b).schema = x.schema
        ∧ (with_db x b).items = x.items) :=
  ⟨rfl, rfl, rfl, rfl, rfl, fun _ => ⟨rfl, rfl, rfl⟩⟩

/-- A Python dict key as seen by `from_py(dict_as_obj=True)`: a text
string, a byte string, an embedded rank-0 DataItem (schema plus
possibly-absent payload), or an embedded multi-element DataSlice. -/
inductive PyKey where
  | str (s : String)
  | bytes (b : List Nat)
  | dataItem (schema : Schema) (item : Option Payload)
  | dataSlice (n : Nat)
deriving Repr

/-- A Python value as seen by `from_py`: literals, an embedded DataItem,
or a nested dict. -/
inductive PyVal where
  | int (i : Int)
  | float (bits : Nat)
  | str (s : String)
  | bytes (b : List Nat)
  | item (schema : Schema) (item : Option Payload)
  | dict (entries : List (PyKey × PyVal))
deriving Repr

/-- A target schema for `from_py`: a primitive attribute schema, OBJECT
(defers checking), or an entity schema given by its ordered attribute
list. -/
inductive TargetSchema where
  | prim (k : PrimKind)
  | object
  | entity (attrs : List (String × TargetSchema))
deriving Repr

/-- The error taxonomy of the `from_py(dict_as_obj=True)` pathway:
`schemaIncompatible attr` renders "the schema for attribute ATTR is
incompatible"; `nonUnicodeKey` renders "dict_as_obj requires keys to be
valid unicode objects, got bytes"; `nonTextDataItemKey` renders "dict
keys cannot be non-TEXT DataItems"; `unhashableKey` renders the
"unhashable type" failure of a multi-element DataSlice used as a dict
key. -/
inductive FromPyError where
  | schemaIncompatible (attr : String)
  | nonUnicodeKey
  | nonTextDataItemKey
  | unhashableKey
deriving Repr, DecidableEq

/-- Modelled from the spec: key validation of `dict_as_obj` — every key
must be a valid text value: a text string is used as-is; a byte string
fails with the dedicated unicode-validity error; a DataItem key is
accepted exactly when its payload is a present text value (whatever its
schema); a multi-element DataSlice key is unhashable. -/
def normalizeKey : PyKey → Except FromPyError String
  | .str s => .ok s
  | .bytes _ => .error .nonUnicodeKey
  | .dataItem _ (some (.prim (.text s))) => .ok s
  | .dataItem _ _ => .error .nonTextDataItemKey
  | .dataSlice _ => .error .unhashableKey

/-- The primitive schema inferred for a Python value, when it has one. -/
def inferKind : PyVal → Option PrimKind
  | .int _ => some .int32
  | .float _ => some .float32
  | .str _ => some .text
  | .bytes _ => some .bytes
  | .item _ (some (.prim v)) => some v.kind
  | .item _ _ => none
  | .dict _ => none

/-- Modelled from the spec: primitive-schema compatibility under
`from_py` — a value satisfies a primitive target schema when the kinds
agree or both are numeric (implicit numeric casting). -/
def compatiblePrim (target value : PrimKind) : Bool :=
  target == value || (target.isNumeric && value.isNumeric)

mutual

/-- Modelled from the spec: validation of one attribute value named
`name` against its target schema; an OBJECT target defers checking, a
primitive target demands a compatible inferred kind, an entity target
recurses into a nested dict; any mismatch fails with a
schema-incompatibility error naming the attribute. -/
def convertVal (name : String) (v : PyVal) (ts : TargetSchema) :
    Except FromPyError Unit :=
  match ts, v with
  | .object, v => convertValObj v
  | .prim k, v =>
      match inferKind v with
      | some vk =>
          if compatiblePrim k vk then .ok ()
          else .error (.schemaIncompatible name)
      | none => .error (.schemaIncompatible name)
  | .entity attrs, .dict entries => convertEntries entries attrs
  | .entity _, _ => .error (.schemaIncompatible name)

/-- Schemaless (OBJECT) conversion of a value: nested dicts still have
their keys validated. -/
def convertValObj : PyVal → Except FromPyError Unit
  | .dict entries => convertEntriesObj entries
  | _ => .ok ()

/-- Conversion of dict entries against an entity schema, in insertion
order: each key is validated, keys absent from the schema are skipped,
and the first offending attribute raises. -/
def convertEntries : List (PyKey × PyVal) → List (String × TargetSchema) →
    Except FromPyError Unit
  | [], _ => .ok ()
  | (k, v) :: rest, attrs =>
    match normalizeKey k with
    | .error e => .error e
    | .ok name =>
      match attrs.lookup name with
      | none => convertEntries rest attrs
      | some ts =>
        match convertVal name v ts with
        | .error e => .error e
        | .ok _ => convertEntries rest attrs

/-- Conversion of dict entries without a schema (to OBJECT), in
insertion order: each key is validated and each value converted as
OBJECT. -/
def convertEntriesObj : List (PyKey × PyVal) → Except FromPyError Unit
  | [] => .ok ()
  | (k, v) :: rest =>
    match normalizeKey k with
    | .error e => .error e
    | .ok _ =>
      match convertValObj v with
      | .error e => .error e
      | .ok _ => convertEntriesObj rest

end

/-- Modelled from the spec: the `from_py(dict_as_obj=True)` pathway on a
top-level dict literal, against an optional explicit entity schema (its
attribute list), reporting the first validation failure. -/
def from_py_dict_as_obj (entries : List (PyKey × PyVal))
    (schema : Option (List (String × TargetSchema))) :
    Except FromPyError Unit :=
  match schema with
  | some attrs => convertEntries entries attrs
  | none => convertEntriesObj entries

/-- C6: converting the literal `{'a': 42, 'b': {'x': 'abc'}, 'c':
b'xyz'}` via `from_py` with `dict_as_obj=True` against the explicit
entity schema `{a: INT64, b: {x: FLOAT32}, c: FLOAT32}` fails with a
schema-incompatibility error naming the offending attribute `x` (the
nested text value cannot satisfy FLOAT32, and it is reached before the
incompatible attribute `c`). -/
theorem from_py_incompatible_schema_names_x :
    from_py_dict_as_obj
      [(.str "a", .int 42),
       (.str "b", .dict [(.str "x", .str "abc")]),
       (.str "c", .item (Schema.prim .bytes)
          (some (.prim (.bytes [120, 121, 122]))))]
      (some [("a", .prim .int64),
             ("b", .entity [("x", .prim .float32)]),
             ("c", .prim .float32)]) =
      .error (.schemaIncompatible "x") := rfl

/-- C7 counterexample: a DataItem key whose schema is ANY (not TEXT) but
whose payload is the text value "a" is accepted by
`from_py(dict_as_obj=True)` — mirroring
`FromPyTest.test_dict_as_obj_dict_key_is_data_item`, where
`ds('a').as_any()` is a valid key against `new_schema(a=INT32)` — so the
claim that every DataItem key with a non-TEXT schema fails is false. -/
theorem dict_as_obj_key_schema_counterexample :
    Schema.any ≠ Schema.prim PrimKind.text
    ∧ normalizeKey (.dataItem Schema.any (some (.prim (.text "a")))) = .ok "a"
    ∧ from_py_dict_as_obj
        [(.dataItem Schema.any (some (.prim (.text "a"))), .int 42)]
        (some [("a", .prim .int32)]) = .ok () :=
  ⟨by decide, rfl, rfl⟩

/-- C7 (amended): `from_py` with `dict_as_obj=True` validates every key —
a Python bytes key fails with the dedicated "requires keys to be valid
unicode objects" error; a DataItem key whose payload is not a present
text value fails with the "non-TEXT DataItem" error (the check is on the
key's value, not its schema: a text-valued DataItem under a non-TEXT
schema is accepted); and a multi-element DataSlice used as a dict key
fails as unhashable. -/
theorem dict_as_obj_key_validation (b : List Nat) (s : Schema)
    (it : Option Payload) (n : Nat) (v : PyVal)
    (rest : List (PyKey × PyVal))
    (sch : Option (List (String × TargetSchema)))
    (hit : ∀ t : String, it ≠ some (Payload.prim (PrimVal.text t))) :
    from_py_dict_as_obj ((.bytes b, v) :: rest) sch = .error .nonUnicodeKey
    ∧ from_py_dict_as_obj ((.dataItem s it, v) :: rest) sch =
        .error .nonTextDataItemKey
    ∧ from_py_dict_as_obj ((.dataSlice n, v) :: rest) sch =
        .error .unhashableKey
    ∧ from_py_dict_as_obj
        [(.dataItem Schema.any (some (.prim (.text "a"))), .int 42)]
        (some [("a", .prim .int32)]) = .ok () := by
  have hkey : normalizeKey (.dataItem s it) = .error .nonTextDataItemKey := by
    match it with
    | none => rfl
    | some (.ref _) => rfl
    | some (.schemaVal _) => rfl
    | some (.prim (.int32 _)) => rfl
    | some (.prim (.int64 _)) => rfl
    | some (.prim (.float32 _)) => rfl
    | some (.prim (.float64 _)) => rfl
    | some (.prim (.bytes _)) => rfl
    | some (.prim (.boolean _)) => rfl
    | some (.prim .mask) => rfl
    | some (.prim (.text t)) => exact absurd rfl (hit t)
  refine ⟨?_, ?_, ?_, rfl⟩
  · cases sch <;>
      simp [from_py_dict_as_obj, convertEntries, convertEntriesObj,
        normalizeKey]
  · cases sch <;>
      simp [from_py_dict_as_obj, convertEntries, convertEntriesObj, hkey]
  · cases sch <;>
      simp [from_py_dict_as_obj, convertEntries, convertEntriesObj,
        normalizeKey]

/-- Witness for C7's amended theorem at the concrete keys of
`from_py_test.py`: the bytes key `b'xyz'`, the BYTES DataItem key
`ds(b'abc')`, and a multi-element DataSlice key. -/
theorem dict_as_obj_key_validation_witness :
    from_py_dict_as_obj [(.bytes [120, 121, 122], .int 42)] none =
      .error .nonUnicodeKey
    ∧ from_py_dict_as_obj
        [(.dataItem (Schema.prim .bytes)
            (some (.prim (.bytes [97, 98, 99]))), .int 42)] none =
      .error .nonTextDataItemKey
    ∧ from_py_dict_as_obj [(.dataSlice 1, .int 42)] none =
      .error .unhashableKey
    ∧ from_py_dict_as_obj
        [(.dataItem Schema.any (some (.prim (.text "a"))), .int 42)]
        (some [("a", .prim .int32)]) = .ok () :=
  dict_as_obj_key_validation [120, 121, 122] (Schema.prim .bytes)
    (some (.prim (.bytes [97, 98, 99]))) 1 (.int 42) [] none
    (by intro t h; simp at h)

end Koladata
